import Mathlib

/-!
Verification of the CythonCRUD-HPC core subsystem: the adaptive string
compressor (`compression.pyx`, class `AdaptiveCompressor`), the connection
pool (`compression.pyx`, class `HPCConnectionPool`) and the CRUD engine
(`crud_engine.pyx`, class `CythonCRUDEngine`), shallowly embedded in Lean.

Modelling conventions, applied uniformly:

* Python/JSON scalar data is modelled by `PyVal` (the JSON-serializable
  fragment without floats; no claim involves floating point). Python
  `dict`s are modelled as insertion-ordered association lists, which is
  Python's observable dict semantics.
* The standard-library `json` codec is an external collaborator of the
  repository; `jsonDumps` / `jsonLoads` model `json.dumps` / `json.loads`
  on the embedded fragment (ints, strings with the common escapes, bools,
  null, lists, string-keyed objects; Python's default `", "` and `": "`
  separators).
* `bytes` objects produced by the code are always UTF-8 encodings of
  strings, so they are modelled by `PyBytes`, a string tagged as encoded;
  `utf8Encode` / `utf8Decode` are `str.encode('utf-8')` /
  `bytes.decode('utf-8')`.
* Misspelled identifiers whose referent is evident and declared are read
  as that referent, and each such reading is recorded in the doc comment
  of the embedding (`_strig_dict` for the declared `_string_dict`,
  `data` for the parameter `compressed_data`, `_connection_pool` for the
  declared `_connections_pool`, `srt` for `str`). Well-formed code with
  defined runtime semantics is embedded exactly as written, including the
  statements that raise at run time.
* Raised Python exceptions are modelled by `Except PyErr`.
-/

namespace CrudHpc

/-- Python values in the JSON-serializable fragment used by the code:
`None`, `bool`, `int`, `str`, `list`, and string-keyed `dict`
(modelled as an insertion-ordered association list). -/
inductive PyVal where
  | none : PyVal
  | bool (b : Bool) : PyVal
  | int (n : Int) : PyVal
  | str (s : String) : PyVal
  | list (l : List PyVal) : PyVal
  | dict (d : List (String × PyVal)) : PyVal

/-- Python runtime errors raised by the modelled code paths. -/
inductive PyErr where
  | typeError : PyErr
  | valueError : PyErr
  | nameError (n : String) : PyErr
  | attributeError (n : String) : PyErr
  | dbError : PyErr
  deriving DecidableEq, Repr

/-- A `bytes` object that is the UTF-8 encoding of `data`
(every `bytes` value the code produces arises this way). -/
structure PyBytes where
  data : String
  deriving DecidableEq

/-- Model of `str.encode('utf-8')`. -/
def utf8Encode (s : String) : PyBytes := ⟨s⟩

/-- Model of `bytes.decode('utf-8')`. -/
def utf8Decode (b : PyBytes) : String := b.data

/-- One escaped character of a JSON string, as `json.dumps` emits it
(the common escapes; other characters pass through verbatim). -/
def jsonEscapeChar (ch : Char) : String :=
  if ch = '"' then "\\\""
  else if ch = '\\' then "\\\\"
  else if ch = '\n' then "\\n"
  else if ch = '\t' then "\\t"
  else if ch = '\r' then "\\r"
  else String.singleton ch

/-- A JSON string literal with quotes and escaping, as `json.dumps` emits it. -/
def jsonQuote (s : String) : String :=
  "\"" ++ String.join (s.toList.map jsonEscapeChar) ++ "\""

mutual

/-- Model of `json.dumps` on the embedded fragment, with Python's default
separators `", "` and `": "`. -/
def jsonDumps : PyVal → String
  | .none => "null"
  | .bool true => "true"
  | .bool false => "false"
  | .int n => toString n
  | .str s => jsonQuote s
  | .list l => "[" ++ jsonDumpsList l ++ "]"
  | .dict d => "\x7b" ++ jsonDumpsDict d ++ "\x7d"

/-- Comma-separated serialization of a JSON array's elements. -/
def jsonDumpsList : List PyVal → String
  | [] => ""
  | [v] => jsonDumps v
  | v :: rest => jsonDumps v ++ ", " ++ jsonDumpsList rest

/-- Comma-separated serialization of a JSON object's members. -/
def jsonDumpsDict : List (String × PyVal) → String
  | [] => ""
  | [kv] => jsonQuote kv.1 ++ ": " ++ jsonDumps kv.2
  | kv :: rest => jsonQuote kv.1 ++ ": " ++ jsonDumps kv.2 ++ ", " ++ jsonDumpsDict rest

end

/-- Whitespace skipping of the JSON parser. -/
def skipWs : List Char → List Char
  | c :: cs => if c = ' ' ∨ c = '\n' ∨ c = '\t' ∨ c = '\r' then skipWs cs else c :: cs
  | [] => []

/-- Unescaping of a character following a backslash in a JSON string
(the common escapes; `\u`, `\b`, `\f` are outside the model). -/
def jsonUnescape (c : Char) : Option Char :=
  if c = '"' then some '"'
  else if c = '\\' then some '\\'
  else if c = '/' then some '/'
  else if c = 'n' then some '\n'
  else if c = 't' then some '\t'
  else if c = 'r' then some '\r'
  else Option.none

/-- Body of a JSON string after the opening quote; returns the decoded
string and the input that follows the closing quote. -/
def parseStringBody : Nat → List Char → Option (String × List Char)
  | 0, _ => Option.none
  | _, [] => Option.none
  | fuel + 1, c :: cs =>
    if c = '"' then some ("", cs)
    else if c = '\\' then
      match cs with
      | [] => Option.none
      | e :: cs' =>
        match jsonUnescape e with
        | Option.none => Option.none
        | some ch =>
          match parseStringBody fuel cs' with
          | Option.none => Option.none
          | some (s, rest) => some (String.singleton ch ++ s, rest)
    else
      match parseStringBody fuel cs with
      | Option.none => Option.none
      | some (s, rest) => some (String.singleton c ++ s, rest)

/-- Decimal digits to a natural number, given the digits read so far. -/
def digitsToNat (acc : Nat) : List Char → Nat
  | [] => acc
  | c :: cs => digitsToNat (acc * 10 + (c.toNat - '0'.toNat)) cs

/-- Longest leading run of decimal digits. -/
def takeDigits : List Char → List Char × List Char
  | [] => ([], [])
  | c :: cs =>
    if '0' ≤ c ∧ c ≤ '9' then
      let (ds, rest) := takeDigits cs
      (c :: ds, rest)
    else ([], c :: cs)

/-- A JSON integer literal (optional minus sign followed by digits);
fractional and exponent forms are outside the embedded fragment and fail. -/
def parseNumber (cs : List Char) : Option (PyVal × List Char) :=
  let (neg, cs') := match cs with
    | '-' :: rest => (true, rest)
    | _ => (false, cs)
  match takeDigits cs' with
  | ([], _) => Option.none
  | (ds, rest) =>
    match rest with
    | '.' :: _ => Option.none
    | 'e' :: _ => Option.none
    | 'E' :: _ => Option.none
    | _ =>
      let n : Int := Int.ofNat (digitsToNat 0 ds)
      some (.int (if neg then -n else n), rest)

mutual

/-- One JSON value at the head of the input (whitespace already skipped);
returns the value and the remaining input. -/
def parseVal : Nat → List Char → Option (PyVal × List Char)
  | 0, _ => Option.none
  | _, [] => Option.none
  | fuel + 1, cs =>
    match cs with
    | 'n' :: 'u' :: 'l' :: 'l' :: rest => some (.none, rest)
    | 't' :: 'r' :: 'u' :: 'e' :: rest => some (.bool true, rest)
    | 'f' :: 'a' :: 'l' :: 's' :: 'e' :: rest => some (.bool false, rest)
    | '"' :: rest =>
      match parseStringBody (fuel + 1) rest with
      | Option.none => Option.none
      | some (s, rest') => some (.str s, rest')
    | '[' :: rest =>
      match skipWs rest with
      | ']' :: rest' => some (.list [], rest')
      | rest' =>
        match parseElems fuel rest' with
        | Option.none => Option.none
        | some (l, rest'') => some (.list l, rest'')
    | '\x7b' :: rest =>
      match skipWs rest with
      | '\x7d' :: rest' => some (.dict [], rest')
      | rest' =>
        match parseMembers fuel rest' with
        | Option.none => Option.none
        | some (d, rest'') => some (.dict d, rest'')
    | _ => parseNumber cs

/-- Comma-separated array elements up to and including the closing bracket. -/
def parseElems : Nat → List Char → Option (List PyVal × List Char)
  | 0, _ => Option.none
  | fuel + 1, cs =>
    match parseVal fuel cs with
    | Option.none => Option.none
    | some (v, rest) =>
      match skipWs rest with
      | ',' :: rest' =>
        match parseElems fuel (skipWs rest') with
        | Option.none => Option.none
        | some (l, rest'') => some (v :: l, rest'')
      | ']' :: rest' => some ([v], rest')
      | _ => Option.none

/-- Comma-separated object members up to and including the closing brace. -/
def parseMembers : Nat → List Char → Option (List (String × PyVal) × List Char)
  | 0, _ => Option.none
  | fuel + 1, cs =>
    match cs with
    | '"' :: rest =>
      match parseStringBody fuel rest with
      | Option.none => Option.none
      | some (k, rest') =>
        match skipWs rest' with
        | ':' :: rest'' =>
          match parseVal fuel (skipWs rest'') with
          | Option.none => Option.none
          | some (v, rest3) =>
            match skipWs rest3 with
            | ',' :: rest4 =>
              match parseMembers fuel (skipWs rest4) with
              | Option.none => Option.none
              | some (d, rest5) => some ((k, v) :: d, rest5)
            | '\x7d' :: rest4 => some ([(k, v)], rest4)
            | _ => Option.none
        | _ => Option.none
    | _ => Option.none

end

/-- Model of `json.loads`: parse one JSON value, allowing surrounding
whitespace, rejecting trailing input; `Option.none` models
`json.JSONDecodeError`. -/
def jsonLoads (s : String) : Option PyVal :=
  match parseVal (2 * s.length + 4) (skipWs s.toList) with
  | Option.none => Option.none
  | some (v, rest) => if skipWs rest = [] then some v else Option.none

/-- A value stored in `AdaptiveCompressor._string_dict`. The two writers of
the dictionary store values of different types: `_compress_string`
(compression.pyx line 56) stores the UTF-8 `bytes` of the string, while
`train_compression` (line 110) stores an `int` identifier. -/
inductive DictVal where
  | bytes (b : PyBytes) : DictVal
  | idx (n : Nat) : DictVal
  deriving DecidableEq

/-- State of `AdaptiveCompressor` (compression.pyx lines 12-25):
`_string_dict` (an insertion-ordered dict, modelled as an association
list), `_dict_size`, `_enabled`. `__init__` line 23 writes
`self._strig_dict = \x7b\x7d`, read as initializing the declared
attribute `_string_dict`. -/
structure Compressor where
  stringDict : List (String × DictVal)
  dictSize : Int
  enabled : Bool

/-- Key lookup in `_string_dict`: Python's `s in d` / `d[s]` on a dict. -/
def dictLookup (d : List (String × DictVal)) (s : String) : Option DictVal :=
  (d.find? (fun kv => kv.1 == s)).map (·.2)

/-- `AdaptiveCompressor._compress_string` (compression.pyx lines 48-58),
declared `cdef bytes`. A dictionary hit returns the stored value through
the declared-return-type coercion Cython enforces: a `bytes` entry (one
this function stored) passes, while an `int` entry (one
`train_compression` stored) fails the coercion and the call raises
`TypeError`. A miss stores the UTF-8 encoding of `s` under `s`,
increments `_dict_size`, and returns the encoding. -/
def compress_string (c : Compressor) (s : String) :
    Except PyErr (PyBytes × Compressor) :=
  match dictLookup c.stringDict s with
  | some (.bytes b) => .ok (b, c)
  | some (.idx _) => .error .typeError
  | Option.none =>
    let enc := utf8Encode s
    let c' : Compressor :=
      { c with stringDict := c.stringDict ++ [(s, .bytes enc)],
               dictSize := c.dictSize + 1 }
    .ok (enc, c')

/-- `AdaptiveCompressor.compress` (compression.pyx lines 27-46). With
compression disabled it returns `json.dumps(data).encode('utf-8')`.
In the enabled region the source's line 41 comment has absorbed the guard
`if isinstance(data, str):` that lines 42-44 evidence, so the string case
calls `_compress_string` (whose raised `TypeError`, if any, propagates)
and every other value falls to the `json.dumps` branch (line 43's
duplicate `isinstance(data, str)` test can then never fire, so
`_compress_dict` is dead code). -/
def compress (c : Compressor) (data : PyVal) : Except PyErr (PyBytes × Compressor) :=
  if c.enabled = false then .ok (utf8Encode (jsonDumps data), c)
  else
    match data with
    | .str s => compress_string c s
    | _ => .ok (utf8Encode (jsonDumps data), c)

/-- Python's `int(s)`: an optional sign followed by at least one digit
(surrounding whitespace is not exercised by the code); anything else
raises `ValueError`. -/
def pyInt (s : String) : Option Int :=
  let (neg, cs) := match s.toList with
    | '-' :: rest => (true, rest)
    | '+' :: rest => (false, rest)
    | cs => (false, cs)
  match takeDigits cs with
  | ([], _) => Option.none
  | (ds, []) =>
    let n : Int := Int.ofNat (digitsToNat 0 ds)
    some (if neg then -n else n)
  | (_, _ :: _) => Option.none

/-- Python `==` between a `_string_dict` value and an `int` index:
an `int` entry compares by value, a `bytes` entry is never equal to an
`int` (cross-type equality is `False`). -/
def dictValEqInt (v : DictVal) (n : Int) : Bool :=
  match v with
  | .idx m => (m : Int) == n
  | .bytes _ => false

/-- The reverse scan of `decompress` (compression.pyx lines 89-91):
`for key, value in self._string_dict.items(): if value == idx: return key`;
falls through when no entry compares equal. -/
def reverseScan (d : List (String × DictVal)) (n : Int) : Option String :=
  (d.find? (fun kv => dictValEqInt kv.2 n)).map (·.1)

/-- The `try: return json.loads(decoded) except: return decoded` tail of
`decompress` (compression.pyx lines 93-96). -/
def jsonFallback (decoded : String) : PyVal :=
  match jsonLoads decoded with
  | some v => v
  | Option.none => .str decoded

/-- Python's `s.startswith('@')` for the single-character case: the first
character of `s` is `ch`. -/
def strHeadIs (s : String) (ch : Char) : Bool :=
  match s.toList with
  | [] => false
  | c :: _ => c == ch

/-- Python's `s[1:]`. -/
def strTail (s : String) : String := String.mk (s.toList.drop 1)

/-- `AdaptiveCompressor.decompress` (compression.pyx lines 70-96). When
disabled: `json.loads(compressed_data.decode('utf-8'))` (a parse failure
raises, modelled as `valueError`). When enabled: line 83 reads
`data.decode('utf-8')` where the parameter is `compressed_data`, read as
that parameter; if the decoded text starts with `'@'`, `int(decoded[1:])`
is taken (raising `ValueError` on non-numeric text, uncaught since the
`try` only starts at line 93), the dictionary is scanned linearly for a
value equal to that index and the matching key returned; otherwise, and
when the scan finds nothing, the `json.loads`-with-fallback tail runs. -/
def decompress (c : Compressor) (compressed_data : PyBytes) : Except PyErr PyVal :=
  if c.enabled = false then
    match jsonLoads (utf8Decode compressed_data) with
    | some v => .ok v
    | Option.none => .error .valueError
  else
    let decoded := utf8Decode compressed_data
    if strHeadIs decoded '@' then
      match pyInt (strTail decoded) with
      | Option.none => .error .valueError
      | some idx =>
        match reverseScan c.stringDict idx with
        | some key => .ok (.str key)
        | Option.none => .ok (jsonFallback decoded)
    else .ok (jsonFallback decoded)

/-- The inner loop body of `train_compression` (compression.pyx lines
108-111): a string value not already a key of `_string_dict` is inserted
with identifier `len(self._string_dict)` and `_dict_size` grows. -/
def trainValue (c : Compressor) (v : PyVal) : Compressor :=
  match v with
  | .str s =>
    if (dictLookup c.stringDict s).isSome then c
    else { c with stringDict := c.stringDict ++ [(s, .idx c.stringDict.length)],
                  dictSize := c.dictSize + 1 }
  | _ => c

/-- One record of `train_compression` (compression.pyx lines 106-111):
only `dict` records are scanned, value by value in order. -/
def trainRecord (c : Compressor) (r : PyVal) : Compressor :=
  match r with
  | .dict d => d.foldl (fun acc kv => trainValue acc kv.2) c
  | _ => c

/-- `AdaptiveCompressor.train_compression` (compression.pyx lines 98-111). -/
def train_compression (c : Compressor) (data_samples : List PyVal) : Compressor :=
  data_samples.foldl trainRecord c

/-- State of `HPCConnectionPool` (compression.pyx lines 123-143, combined
file numbering): `idle` is `len(self._connections)` (the idle list;
individual handles are opaque), `maxSize` is `_max_size`, and
`checkedOut` is a ghost counter of connections handed out by
`get_connection` and not yet returned through `release_connection`. -/
structure PoolState where
  idle : Nat
  checkedOut : Nat
  maxSize : Nat
  deriving DecidableEq, Repr

/-- `HPCConnectionPool.__init__` / `_initialize_pool` (lines 135-149):
pre-creates `min(10, self._max_size)` idle connections. -/
def initPool (maxSize : Nat) : PoolState :=
  { idle := Nat.min 10 maxSize, checkedOut := 0, maxSize := maxSize }

/-- Outcome of `get_connection`: a connection (popped from the idle list
or freshly created), or the `while not self._connections: pass` spin of
lines 178-179, entered holding `self._lock` and hence never exiting (no
other thread can run `release_connection`, which needs the same lock).
The source defines no timeout parameter and no exhaustion error. -/
inductive AcquireResult where
  | conn (fromPool : Bool) : AcquireResult
  | spin : AcquireResult
  deriving DecidableEq, Repr

/-- `HPCConnectionPool.get_connection` (lines 164-180): pop an idle
connection if any; otherwise (the idle list now being empty) the guard
`len(self._connections) < self._max_size` compares the idle count — not
the number of connections in existence — against `_max_size`, so
whenever `0 < _max_size` a brand-new connection is created regardless of
how many are already checked out; only when `_max_size ≤ 0` is the spin
loop reached. -/
def get_connection (p : PoolState) : AcquireResult × PoolState :=
  if 0 < p.idle then
    (.conn true, { p with idle := p.idle - 1, checkedOut := p.checkedOut + 1 })
  else if p.idle < p.maxSize then
    (.conn false, { p with checkedOut := p.checkedOut + 1 })
  else (.spin, p)

/-- `HPCConnectionPool.release_connection` (lines 182-193): append to the
idle list when `len(self._connections) < self._max_size`, else close the
connection. Either way the caller has given up its checked-out handle. -/
def release_connection (p : PoolState) : PoolState :=
  if p.idle < p.maxSize then
    { p with idle := p.idle + 1, checkedOut := p.checkedOut - 1 }
  else { p with checkedOut := p.checkedOut - 1 }

/-- Pool states reachable from `initPool m` by any interleaving of
`get_connection` calls and `release_connection` calls by holders. -/
inductive PoolReachable (m : Nat) : PoolState → Prop where
  | init : PoolReachable m (initPool m)
  | acquire {p : PoolState} : PoolReachable m p → PoolReachable m (get_connection p).2
  | release {p : PoolState} : PoolReachable m p → 0 < p.checkedOut →
      PoolReachable m (release_connection p)

/-- State of `CythonCRUDEngine` (crud_engine.pyx lines 30-57): the
declared attributes relevant to the claims. Lines 34-37 declare
`_connections_pool` and `_query_cache` twice; modelled once. Connection
handles in the pool are represented by `Nat` tags (their identity plays
no role). `_query_cache` is written by no engine operation, so its key
and value types are unconstrained; keys are modelled as strings and
values as `PyVal`. -/
structure EngineState where
  dbPath : String
  useCompression : Bool
  maxConnections : Int
  connectionsPool : List Nat
  queryCache : List (String × PyVal)
  walEnabled : Bool
  batchSize : Nat

/-- `CythonCRUDEngine._get_connection` (crud_engine.pyx lines 80-85):
line 82's `self._connection_pool` is read as the declared
`_connections_pool`; a nonempty pool has its last element popped
(`list.pop()`), an empty pool gets a fresh `sqlite3.connect` handle
(modelled with tag 0). -/
def engine_get_connection (st : EngineState) : Nat × EngineState :=
  match st.connectionsPool.getLast? with
  | some c => (c, { st with connectionsPool := st.connectionsPool.dropLast })
  | Option.none => (0, st)

/-- `CythonCRUDEngine._release_connection` (crud_engine.pyx lines 87-92):
append the handle back when `len(self._connections_pool) <
self.max_connections`, else close it. -/
def engine_release_connection (st : EngineState) (conn : Nat) : EngineState :=
  if (st.connectionsPool.length : Int) < st.maxConnections then
    { st with connectionsPool := st.connectionsPool ++ [conn] }
  else st

/-- Result of a query as the sqlite cursor presents it: the column names
of `cursor.description` and the row tuples of `cursor.fetchall()`. -/
structure DbResult where
  columns : List String
  rows : List (List PyVal)

/-- `CythonCRUDEngine.read_optimized` (crud_engine.pyx lines 140-176),
parametrized by the store's behaviour `db` (query text and positional
parameter values to a result set). The body takes a connection, executes
the query unconditionally — `_query_cache` is neither consulted nor
written anywhere in the function — and builds `results` row by row; the
`return results` of line 173 sits inside the `for` loop, so the first
row ends the function, and a zero-row result set falls off the `try`
returning `None`. The `Bool` of the result records that the query was
executed against the store. -/
def read_optimized (db : String → List PyVal → DbResult) (st : EngineState)
    (query : String) (params : List (String × PyVal)) :
    Option PyVal × EngineState × Bool :=
  let (conn, st₁) := engine_get_connection st
  let res := db query (params.map (·.2))
  let result : Option PyVal :=
    match res.rows with
    | [] => Option.none
    | r :: _ => some (.list [.dict (res.columns.zip r)])
  let st₂ := engine_release_connection st₁ conn
  (result, st₂, true)

/-- Actions performed on the checked-out connection, in program order. -/
inductive DbAction where
  | execute (query : String) (ok : Bool) : DbAction
  | commit : DbAction
  | rollback : DbAction
  | releaseConn : DbAction
  deriving DecidableEq, Repr

/-- `CythonCRUDEngine.update_transactional` (crud_engine.pyx lines
178-212), parametrized by the outcome the store gives the single
`cursor.execute` (`.ok rowcount`, or `.error` for a raised database
error). The body is a `try`/`finally` with no `except` and no
`conn.rollback()` anywhere: on success the trace is execute, commit,
release; on an execution error the exception propagates through the
`finally`, which releases the connection with the implicit transaction
still open — no rollback action ever occurs. `_query_cache` is never
touched. -/
def update_transactional (execOutcome : Except Unit Int) (st : EngineState)
    (table_name : String) (updates : List (String × PyVal))
    (where_clause : String) (where_params : List (String × PyVal)) :
    Except PyErr Int × EngineState × List DbAction :=
  let (conn, st₁) := engine_get_connection st
  let set_clause := String.intercalate ", " (updates.map (fun kv => kv.1 ++ "=?"))
  let query := "UPDATE " ++ table_name ++ " SET " ++ set_clause ++ " WHERE " ++ where_clause
  match execOutcome with
  | .ok rows_updated =>
    (.ok rows_updated, engine_release_connection st₁ conn,
     [.execute query true, .commit, .releaseConn])
  | .error _ =>
    (.error .dbError, engine_release_connection st₁ conn,
     [.execute query false, .releaseConn])

/-- `CythonCRUDEngine.delete_cascade` (crud_engine.pyx lines 214-242),
parametrized like `update_transactional`. Same shape: execute, commit on
success, release in the `finally`; no rollback path and no access to
`_query_cache`. -/
def delete_cascade (execOutcome : Except Unit Int) (st : EngineState)
    (table_name : String) (where_clause : String)
    (where_params : List (String × PyVal)) :
    Except PyErr Int × EngineState × List DbAction :=
  let (conn, st₁) := engine_get_connection st
  let query := "DELETE FROM " ++ table_name ++ " WHERE " ++ where_clause
  match execOutcome with
  | .ok rows_deleted =>
    (.ok rows_deleted, engine_release_connection st₁ conn,
     [.execute query true, .commit, .releaseConn])
  | .error _ =>
    (.error .dbError, engine_release_connection st₁ conn,
     [.execute query false, .releaseConn])

/-- Python's `sep.join(iterable)`: every item must be a `str`, otherwise
`TypeError` is raised at the first offending item. -/
def pyStrJoin (sep : String) (items : List PyVal) : Except PyErr String := do
  let strs ← items.mapM (fun v =>
    match v with
    | .str s => Except.ok s
    | _ => Except.error PyErr.typeError)
  return String.intercalate sep strs

/-- The batch starts of `range(0, total_records, self._batch_size)`
(crud_engine.pyx line 119); `_batch_size` is positive (10000). -/
def batchStarts (total batchSize : Nat) : List Nat :=
  (List.range ((total + batchSize - 1) / batchSize)).map (· * batchSize)

/-- One batch of `create_bulk` (crud_engine.pyx lines 120-133): line 124
computes `placeholders = ', '.join(['?'] for _ in batch[0].keys())` — the
joined items are the one-element *lists* `['?']`, not strings, so for any
batch whose first record has at least one column the join raises
`TypeError` before a single row is inserted. Were the join to succeed
(only possible for a record with no columns), each record is executed
and its `cursor.lastrowid` collected, then `conn.commit()` runs. `execCount`
numbers the inserts across batches for the `lastrowid` oracle. -/
def createBatch (lastrowid : Nat → Int) (execCount : Nat) (table_name : String)
    (batch : List (List (String × PyVal))) : Except PyErr (List Int) :=
  match batch with
  | [] => .ok []
  | b0 :: _ => do
    let placeholders ← pyStrJoin ", " (b0.map (fun _ => PyVal.list [.str "?"]))
    let columns := String.intercalate ", " (b0.map (·.1))
    let _query := "INSERT INTO " ++ table_name ++ " (" ++ columns ++ ") VALUES ("
      ++ placeholders ++ ")"
    return (List.range batch.length).map (fun i => lastrowid (execCount + i))

/-- The batch loop of `create_bulk`, accumulating `inserted_ids`. -/
def createBatches (lastrowid : Nat → Int) (table_name : String)
    (records : List (List (String × PyVal))) (batchSize : Nat) :
    Except PyErr (List Int) :=
  (batchStarts records.length batchSize).foldl
    (fun acc start => do
      let ids ← acc
      let batch := (records.drop start).take batchSize
      let newIds ← createBatch lastrowid ids.length table_name batch
      return ids ++ newIds)
    (.ok [])

/-- `CythonCRUDEngine.create_bulk` (crud_engine.pyx lines 94-138); line
94's parameter type `srt` is read as `str`. A connection is taken; for a
nonempty record list the table is created from `records[0]` and the
batch loop runs; the `finally` releases the connection whether the body
returns or raises; the raised error (the line 124 `TypeError` on every
nonempty first record) propagates to the caller. No rollback exists on
any path. -/
def create_bulk (lastrowid : Nat → Int) (st : EngineState)
    (records : List (List (String × PyVal))) (table_name : String) :
    Except PyErr (List Int) × EngineState :=
  let (conn, st₁) := engine_get_connection st
  let body := createBatches lastrowid table_name records st.batchSize
  (body, engine_release_connection st₁ conn)

/-- An attribute value of `CythonCRUDEngine`, by declared type. -/
inductive AttrVal where
  | vStr (s : String) : AttrVal
  | vBool (b : Bool) : AttrVal
  | vInt (n : Int) : AttrVal
  | vConnList (l : List Nat) : AttrVal
  | vCacheDict (d : List (String × PyVal)) : AttrVal

/-- Attribute lookup on a `CythonCRUDEngine` instance. A `cdef` class has
no instance `__dict__`: exactly the attributes declared in the `cdef`
block of crud_engine.pyx lines 30-40 resolve (`_compressor` carries no
claim-relevant state and is omitted); any other name fails. -/
def engineAttr (st : EngineState) (name : String) : Option AttrVal :=
  if name = "db_path" then some (.vStr st.dbPath)
  else if name = "use_compression" then some (.vBool st.useCompression)
  else if name = "max_connections" then some (.vInt st.maxConnections)
  else if name = "_connections_pool" then some (.vConnList st.connectionsPool)
  else if name = "_query_cache" then some (.vCacheDict st.queryCache)
  else if name = "_wal_enabled" then some (.vBool st.walEnabled)
  else if name = "_batch_size" then some (.vInt st.batchSize)
  else Option.none

/-- `self.<name>` as an expression: a missing attribute raises
`AttributeError`. -/
def getAttr (st : EngineState) (name : String) : Except PyErr AttrVal :=
  match engineAttr st name with
  | some v => .ok v
  | Option.none => .error (.attributeError name)

/-- Python `len` on the attribute values it is applied to. -/
def pyLen (v : AttrVal) : Except PyErr Int :=
  match v with
  | .vConnList l => .ok l.length
  | .vCacheDict d => .ok d.length
  | _ => .error .typeError

/-- `CythonCRUDEngine.get_performance_metrics` (crud_engine.pyx lines
265-279): the dict literal evaluates its six entries in order; the last
entry reads `self._query_cache_size`, a name declared nowhere in the
`cdef` block (the cache itself is `_query_cache`), so building the
snapshot raises `AttributeError` instead of returning. -/
def get_performance_metrics (st : EngineState) :
    Except PyErr (List (String × AttrVal)) := do
  let pool ← getAttr st "_connections_pool"
  let poolLen ← pyLen pool
  let maxC ← getAttr st "max_connections"
  let wal ← getAttr st "_wal_enabled"
  let compr ← getAttr st "use_compression"
  let bs ← getAttr st "_batch_size"
  let qcs ← getAttr st "_query_cache_size"
  return [("connection_pool_size", .vInt poolLen), ("max_connections", maxC),
          ("wal_enabled", wal), ("compression_enabled", compr),
          ("batch_size", bs), ("query_cache_size", qcs)]

/-- A freshly constructed `AdaptiveCompressor(enabled=True)`: empty
dictionary, zero size (`__init__`, compression.pyx lines 22-25). -/
def freshCompressor : Compressor :=
  { stringDict := [], dictSize := 0, enabled := true }

/-- The string `s` occurs as a string value of the (dict) record `r`. -/
def stringValueIn (s : String) (r : PyVal) : Prop :=
  ∃ d, r = PyVal.dict d ∧ ∃ kv ∈ d, kv.2 = PyVal.str s

/-- The string `s` occurs as a string value in some record of `samples`. -/
def occursInSamples (s : String) (samples : List PyVal) : Prop :=
  ∃ r ∈ samples, stringValueIn s r

/-- Sample fixture for the read-cache claim: an engine whose `_query_cache`
already holds an entry for the users query (the code computes no
fingerprint, so the key's form is immaterial) with a stored result
distinct from what the store returns. -/
def stCached : EngineState :=
  { dbPath := "app.db", useCompression := true, maxConnections := 64,
    connectionsPool := [], queryCache := [("SELECT * FROM users|", .int 999)],
    walEnabled := true, batchSize := 10000 }

/-- Store behaviour for the read-cache claim: two rows for any query. -/
def dbUsers : String → List PyVal → DbResult := fun _ _ =>
  { columns := ["id", "name"],
    rows := [[.int 1, .str "a"], [.int 2, .str "b"]] }

/-- Sample engine fixture with one pooled connection and empty cache. -/
def stEngine : EngineState :=
  { dbPath := "app.db", useCompression := true, maxConnections := 64,
    connectionsPool := [7], queryCache := [], walEnabled := true,
    batchSize := 10000 }

/-! ## Helper lemmas -/

theorem dictLookup_append (d₁ d₂ : List (String × DictVal)) (s : String) :
    dictLookup (d₁ ++ d₂) s = (dictLookup d₁ s).or (dictLookup d₂ s) := by
  induction d₁ with
  | nil => simp [dictLookup]
  | cons kv rest ih =>
    simp only [dictLookup, List.cons_append, List.find?] at *
    cases h : kv.1 == s <;> simp [h] at ih ⊢ <;> simp [ih]

theorem dictLookup_trainValue_isSome (c : Compressor) (v : PyVal) (s : String)
    (h : (dictLookup c.stringDict s).isSome) :
    (dictLookup (trainValue c v).stringDict s).isSome := by
  cases v with
  | str s' =>
    unfold trainValue
    by_cases h' : (dictLookup c.stringDict s').isSome
    · simpa [h']
    · simp [h', dictLookup_append, Option.or]
      obtain ⟨w, hw⟩ := Option.isSome_iff_exists.mp h
      simp [hw]
  | none => exact h
  | bool b => exact h
  | int n => exact h
  | list l => exact h
  | dict d => exact h

theorem dictLookup_trainValue_self (c : Compressor) (s : String) :
    (dictLookup (trainValue c (.str s)).stringDict s).isSome := by
  unfold trainValue
  rcases hl : dictLookup c.stringDict s with _ | v
  · simp only [hl, Option.isSome_none, Bool.false_eq_true, if_false]
    rw [dictLookup_append, hl]
    simp [dictLookup, Option.or]
  · simp [hl]

theorem dictLookup_foldl_trainValue_isSome (entries : List (String × PyVal))
    (c : Compressor) (s : String) (h : (dictLookup c.stringDict s).isSome) :
    (dictLookup ((entries.foldl (fun acc kv => trainValue acc kv.2) c).stringDict) s).isSome := by
  induction entries generalizing c with
  | nil => simpa
  | cons kv rest ih => exact ih _ (dictLookup_trainValue_isSome _ _ _ h)

theorem dictLookup_trainRecord_isSome (c : Compressor) (r : PyVal) (s : String)
    (h : (dictLookup c.stringDict s).isSome) :
    (dictLookup (trainRecord c r).stringDict s).isSome := by
  cases r with
  | dict d => exact dictLookup_foldl_trainValue_isSome d c s h
  | none => exact h
  | bool b => exact h
  | int n => exact h
  | str s' => exact h
  | list l => exact h

theorem dictLookup_trainRecord_self (c : Compressor) (d : List (String × PyVal))
    (s : String) (h : ∃ kv ∈ d, kv.2 = PyVal.str s) :
    (dictLookup (trainRecord c (.dict d)).stringDict s).isSome := by
  induction d generalizing c with
  | nil => simp at h
  | cons kv rest ih =>
    obtain ⟨kv', hmem, hval⟩ := h
    rcases List.mem_cons.mp hmem with heq | hmem'
    · subst heq
      show (dictLookup ((rest.foldl (fun acc kv => trainValue acc kv.2)
        (trainValue c kv'.2)).stringDict) s).isSome
      apply dictLookup_foldl_trainValue_isSome
      rw [hval]
      exact dictLookup_trainValue_self c s
    · exact ih (trainValue c kv.2) ⟨kv', hmem', hval⟩

theorem dictLookup_train_isSome (samples : List PyVal) (c : Compressor)
    (s : String) (h : (dictLookup c.stringDict s).isSome) :
    (dictLookup (train_compression c samples).stringDict s).isSome := by
  induction samples generalizing c with
  | nil => simpa [train_compression]
  | cons r rest ih => exact ih _ (dictLookup_trainRecord_isSome _ _ _ h)

theorem dictLookup_train_self (c : Compressor) (samples : List PyVal)
    (s : String) (h : occursInSamples s samples) :
    (dictLookup (train_compression c samples).stringDict s).isSome := by
  induction samples generalizing c with
  | nil => obtain ⟨r, hmem, _⟩ := h; simp at hmem
  | cons r rest ih =>
    obtain ⟨r', hmem, hsv⟩ := h
    rcases List.mem_cons.mp hmem with heq | hmem'
    · subst heq
      obtain ⟨d, hd, hkv⟩ := hsv
      subst hd
      exact dictLookup_train_isSome rest _ s (dictLookup_trainRecord_self c d s hkv)
    · exact ih (trainRecord c r) ⟨r', hmem', hsv⟩

theorem dictLookup_trainValue_idx (c : Compressor) (v : PyVal) (s : String)
    (h : dictLookup c.stringDict s = Option.none ∨
         ∃ n, dictLookup c.stringDict s = some (.idx n)) :
    dictLookup (trainValue c v).stringDict s = Option.none ∨
      ∃ n, dictLookup (trainValue c v).stringDict s = some (.idx n) := by
  cases v with
  | str s' =>
    unfold trainValue
    rcases hl : dictLookup c.stringDict s' with _ | w
    · simp only [hl, Option.isSome_none, Bool.false_eq_true, if_false]
      rw [dictLookup_append]
      rcases h with h | ⟨n, h⟩
      · rw [h]
        by_cases hss : s' = s
        · subst hss
          right
          exact ⟨c.stringDict.length, by simp [dictLookup, Option.or]⟩
        · left
          have hb : (s' == s) = false := by simpa using hss
          simp [dictLookup, List.find?, Option.or, hb]
      · rw [h]
        exact Or.inr ⟨n, rfl⟩
    · simpa [hl] using h
  | none => exact h
  | bool b => exact h
  | int n => exact h
  | list l => exact h
  | dict d => exact h

theorem dictLookup_foldl_trainValue_idx (entries : List (String × PyVal))
    (c : Compressor) (s : String)
    (h : dictLookup c.stringDict s = Option.none ∨
         ∃ n, dictLookup c.stringDict s = some (.idx n)) :
    dictLookup ((entries.foldl (fun acc kv => trainValue acc kv.2) c).stringDict) s
        = Option.none ∨
      ∃ n, dictLookup ((entries.foldl (fun acc kv => trainValue acc kv.2) c).stringDict) s
        = some (.idx n) := by
  induction entries generalizing c with
  | nil => simpa
  | cons kv rest ih => exact ih _ (dictLookup_trainValue_idx _ _ _ h)

theorem dictLookup_trainRecord_idx (c : Compressor) (r : PyVal) (s : String)
    (h : dictLookup c.stringDict s = Option.none ∨
         ∃ n, dictLookup c.stringDict s = some (.idx n)) :
    dictLookup (trainRecord c r).stringDict s = Option.none ∨
      ∃ n, dictLookup (trainRecord c r).stringDict s = some (.idx n) := by
  cases r with
  | dict d => exact dictLookup_foldl_trainValue_idx d c s h
  | none => exact h
  | bool b => exact h
  | int n => exact h
  | str s' => exact h
  | list l => exact h

theorem dictLookup_train_idx (samples : List PyVal) (c : Compressor) (s : String)
    (h : dictLookup c.stringDict s = Option.none ∨
         ∃ n, dictLookup c.stringDict s = some (.idx n)) :
    dictLookup (train_compression c samples).stringDict s = Option.none ∨
      ∃ n, dictLookup (train_compression c samples).stringDict s = some (.idx n) := by
  induction samples generalizing c with
  | nil => simpa [train_compression]
  | cons r rest ih => exact ih _ (dictLookup_trainRecord_idx _ _ _ h)

theorem engine_release_queryCache (st : EngineState) (conn : Nat) :
    (engine_release_connection st conn).queryCache = st.queryCache := by
  unfold engine_release_connection
  split <;> rfl

theorem engine_get_queryCache (st : EngineState) :
    (engine_get_connection st).2.queryCache = st.queryCache := by
  unfold engine_get_connection
  cases st.connectionsPool.getLast? <;> rfl

/-! ## The claims -/

/-- C1. The claim states that `decode(encodeString(s)) == s` for every
string over the lifetime of one dictionary. The code refutes it:
`_compress_string` emits the raw UTF-8 of `s` with no dictionary marker,
and `decompress` ends in `json.loads`, so any string that parses as JSON
comes back as the parsed value. Concretely, for the fresh enabled
compressor and `s = "5"`, encoding yields the bytes `b"5"` and decoding
them returns the integer `5`, not the string `"5"`. -/
theorem c1_roundtrip_fails :
    ∃ c' : Compressor,
      compress freshCompressor (.str "5") = .ok (utf8Encode "5", c') ∧
      decompress c' (utf8Encode "5") = .ok (.int 5) ∧
      PyVal.int 5 ≠ PyVal.str "5" := by
  refine ⟨{ stringDict := [("5", .bytes (utf8Encode "5"))], dictSize := 1,
            enabled := true }, rfl, rfl, ?_⟩
  intro h
  exact PyVal.noConfusion h

/-- C2. The claim states `idle + checked_out ≤ max_size` in every
reachable pool state. The code refutes it: `get_connection`'s capacity
guard `len(self._connections) < self._max_size` tests the idle count
(zero at that point), not the number of live connections, so a pool of
`max_size = 1` reaches a state with two connections checked out after
two acquires and no release. -/
theorem c2_capacity_exceeded :
    ∃ p : PoolState, PoolReachable 1 p ∧ p.maxSize = 1 ∧
      p.maxSize < p.checkedOut ∧ p.maxSize < p.idle + p.checkedOut := by
  refine ⟨{ idle := 0, checkedOut := 2, maxSize := 1 }, ?_, rfl, by decide, by decide⟩
  exact PoolReachable.acquire (PoolReachable.acquire PoolReachable.init)

/-- C3. The claim states that `acquire(timeout)` on a saturated pool
returns `PoolExhausted` once the timeout elapses. The code refutes it:
`get_connection` takes no timeout and defines no exhaustion error; for
any pool with `max_size ≥ 1` — saturated or not — it returns a
connection immediately, manufacturing a fresh one past the cap whenever
the idle list is empty (the spin branch is unreachable then). -/
theorem c3_never_exhausted (p : PoolState) (h : 1 ≤ p.maxSize) :
    ∃ b : Bool, (get_connection p).1 = .conn b := by
  unfold get_connection
  by_cases hidle : 0 < p.idle
  · exact ⟨true, by simp [hidle]⟩
  · have hlt : p.idle < p.maxSize := by omega
    exact ⟨false, by simp [hidle, hlt]⟩

/-- Witness for C3 at the saturated single-connection pool: `max_size = 1`
with the one connection checked out and none idle. -/
theorem c3_never_exhausted_witness :
    1 ≤ (PoolState.mk 0 1 1).maxSize ∧
      ∃ b : Bool, (get_connection (PoolState.mk 0 1 1)).1 = .conn b :=
  ⟨by decide, c3_never_exhausted (PoolState.mk 0 1 1) (by decide)⟩

/-- C4. The claim states that a read whose fingerprint is cached returns
the stored result without executing, and a miss stores the full result
set. The code refutes both: with the users query already cached in
`stCached`, `read_optimized` still executes the query against the store
(third component `true`), returns a list holding only the first of the
two result rows (the `return` sits inside the row loop), and leaves
`_query_cache` exactly as it was — nothing is consulted or stored. -/
theorem c4_cache_ignored :
    read_optimized dbUsers stCached "SELECT * FROM users" []
      = (some (.list [.dict [("id", .int 1), ("name", .str "a")]]),
         { stCached with connectionsPool := [0] }, true) ∧
    (read_optimized dbUsers stCached "SELECT * FROM users" []).2.1.queryCache
      = stCached.queryCache :=
  ⟨rfl, rfl⟩

/-- C5. The claim states that a successful write to a table invalidates
every cache entry for that table. The code refutes it: neither
`update_transactional` nor `delete_cascade` reads or writes
`_query_cache` on any path, so the cache after any write — succeeding or
failing — is exactly the cache before it, and a pre-existing entry for
the written table survives. -/
theorem c5_no_invalidation (execOutcome : Except Unit Int) (st : EngineState)
    (table_name : String) (updates : List (String × PyVal))
    (where_clause : String) (where_params : List (String × PyVal)) :
    (update_transactional execOutcome st table_name updates where_clause
        where_params).2.1.queryCache = st.queryCache ∧
    (delete_cascade execOutcome st table_name where_clause
        where_params).2.1.queryCache = st.queryCache := by
  constructor <;>
    cases execOutcome <;>
      simp [update_transactional, delete_cascade, engine_release_queryCache,
            engine_get_queryCache]

/-- C6. The claim states that an execution error triggers an explicit
rollback before the connection is released, and no exit path releases a
connection with a transaction open. The code refutes it: the body is
`try`/`finally` with no `except` and no `conn.rollback()` call anywhere
in the engine, so a failing `UPDATE` produces the action trace
execute-then-release — the implicit transaction opened by the execute is
still open when the `finally` hands the connection back to the pool. -/
theorem c6_no_rollback :
    update_transactional (.error ()) stEngine "users" [("name", .str "z")]
        "id = ?" [("id", .int 2)]
      = (.error .dbError, stEngine,
         [.execute "UPDATE users SET name=? WHERE id = ?" false, .releaseConn]) ∧
    DbAction.rollback ∉
      [DbAction.execute "UPDATE users SET name=? WHERE id = ?" false,
       DbAction.releaseConn] :=
  ⟨rfl, by decide⟩

/-- C7. The claim states that `createBulk` partitions records into
batches, inserts each batch in its own transaction and returns the
assigned identifiers. The code refutes it at the first step: line 124
builds the placeholder string by joining the one-element lists `['?']`
instead of the string `'?'`, so `str.join` raises `TypeError` for every
nonempty record before a single row is inserted; the call can never
return identifiers (and the engine contains no rollback for the
mid-batch failure case either). -/
theorem c7_create_bulk_typeerror :
    create_bulk (fun i => (i : Int) + 1) stEngine [[("name", .str "a")]] "users"
      = (.error .typeError, stEngine) :=
  rfl

/-- C8. The claim states that `train(samples)` followed by
`encodeString(s)` for a string `s` present in the samples reuses the
identifier assigned during training without allocating a new one. The
code refutes it: `train_compression` stores the *int* identifier
`len(self._string_dict)`, while `_compress_string` is declared
`cdef bytes`, so the hit branch's `return self._string_dict[s]` fails
the declared-return-type coercion — for every string `s` not already in
the dictionary before training and occurring as a string value in the
samples, the dictionary does map `s` to an `int` identifier after
training, but `encodeString(s)` then raises `TypeError` instead of
returning it. -/
theorem c8_train_then_encode_raises (c : Compressor) (samples : List PyVal)
    (s : String) (hnew : dictLookup c.stringDict s = Option.none)
    (hocc : occursInSamples s samples) :
    ∃ n, dictLookup (train_compression c samples).stringDict s = some (.idx n) ∧
      compress_string (train_compression c samples) s = .error .typeError := by
  have hsome := dictLookup_train_self c samples s hocc
  rcases dictLookup_train_idx samples c s (Or.inl hnew) with h | ⟨n, h⟩
  · rw [h] at hsome
    simp at hsome
  · exact ⟨n, h, by simp [compress_string, h]⟩

/-- Witness for C8: training the fresh compressor on one record whose
value is `"hi"` and then encoding `"hi"` — the trained entry is the
identifier 0, and encoding raises `TypeError`. -/
theorem c8_train_then_encode_raises_witness :
    dictLookup freshCompressor.stringDict "hi" = Option.none ∧
    occursInSamples "hi" [PyVal.dict [("k", .str "hi")]] ∧
    ∃ n, dictLookup (train_compression freshCompressor
        [PyVal.dict [("k", .str "hi")]]).stringDict "hi" = some (.idx n) ∧
      compress_string (train_compression freshCompressor
          [PyVal.dict [("k", .str "hi")]]) "hi" = .error .typeError := by
  have hocc : occursInSamples "hi" [PyVal.dict [("k", .str "hi")]] :=
    ⟨PyVal.dict [("k", .str "hi")], by simp,
     [("k", .str "hi")], rfl, ("k", .str "hi"), by simp, rfl⟩
  exact ⟨rfl, hocc, c8_train_then_encode_raises freshCompressor _ "hi" rfl hocc⟩

/-- C9. The claim states that the metrics operation returns a six-field
snapshot. The code refutes it: the snapshot's last entry reads
`self._query_cache_size`, an attribute declared nowhere in the `cdef`
block of `CythonCRUDEngine` (the cache attribute is `_query_cache`), so
every call raises `AttributeError` instead of returning a snapshot. -/
theorem c9_metrics_raises (st : EngineState) :
    get_performance_metrics st = .error (.attributeError "_query_cache_size") :=
  rfl

/-- C10. Confirmed: with `enabled=False`, `compress` is exactly
`json.dumps` followed by UTF-8 encoding and `decompress` is UTF-8
decoding followed by `json.loads`, neither reading nor writing the
dictionary; so for every value the external JSON codec round-trips,
`decompress (compress x) = x`. The codec itself is an external
collaborator, hence the round-trip hypothesis. -/
theorem c10_disabled_roundtrip (c : Compressor) (x : PyVal)
    (hen : c.enabled = false)
    (hjson : jsonLoads (jsonDumps x) = some x) :
    compress c x = .ok (utf8Encode (jsonDumps x), c) ∧
    decompress c (utf8Encode (jsonDumps x)) = .ok x := by
  unfold compress decompress
  rw [hen]
  simp [utf8Decode, utf8Encode, hjson]

/-- Witness for C10: a disabled compressor whose dictionary is nonempty
(showing it is bypassed) and the record value given as a dict. -/
theorem c10_disabled_roundtrip_witness :
    (Compressor.mk [("s", .idx 0)] 1 false).enabled = false ∧
    jsonLoads (jsonDumps (.dict [("name", .str "a")]))
      = some (.dict [("name", .str "a")]) ∧
    compress (Compressor.mk [("s", .idx 0)] 1 false) (.dict [("name", .str "a")])
      = .ok (utf8Encode (jsonDumps (.dict [("name", .str "a")])),
             Compressor.mk [("s", .idx 0)] 1 false) ∧
    decompress (Compressor.mk [("s", .idx 0)] 1 false)
        (utf8Encode (jsonDumps (.dict [("name", .str "a")])))
      = .ok (.dict [("name", .str "a")]) :=
  ⟨rfl, rfl,
   (c10_disabled_roundtrip (Compressor.mk [("s", .idx 0)] 1 false)
     (.dict [("name", .str "a")]) rfl rfl).1,
   (c10_disabled_roundtrip (Compressor.mk [("s", .idx 0)] 1 false)
     (.dict [("name", .str "a")]) rfl rfl).2⟩

end CrudHpc
